import Mathlib

/-!
Verification of the container-creation orchestrator
(`crates/libcontainer/src/container/builder_impl.rs`).

The orchestrator is shallowly embedded: external collaborators (notify
listener, kernel tunables, the process launcher, the state store, the hook
runner, the cgroup manager, the filesystem) are modelled by an `Env` record
holding the outcome each collaborator would produce, and every run of
`run_container` / `create` / `cleanup_container` yields its result together
with the ordered trace of collaborator invocations (`Event`s) it performed.
-/

/-- Mirrors `ContainerType` (`crate::process::args`): init vs tenant. -/
inductive ContainerType where
  | InitContainer
  | TenantContainer
deriving DecidableEq

/-- Mirrors `ContainerStatus` (`super::`): lifecycle states of a container. -/
inductive ContainerStatus where
  | Creating
  | Created
  | Running
  | Stopped
  | Paused
deriving DecidableEq

/-- The persisted `Container` state record, with the fields this orchestrator
reads and writes: identity, filesystem root, status, creator uid, pid and the
Intel-RDT cleanup flag. -/
structure Container where
  id : String
  root : String
  status : ContainerStatus
  creator : Option Nat
  pid : Option Nat
  clean_up_intel_rdt_subdirectory : Option Bool
deriving DecidableEq

/-- Mirrors `Container::set_status`. -/
def Container.set_status (c : Container) (s : ContainerStatus) : Container :=
  { c with status := s }

/-- Mirrors `Container::set_creator`. -/
def Container.set_creator (c : Container) (u : Nat) : Container :=
  { c with creator := some u }

/-- Mirrors `Container::set_pid`. -/
def Container.set_pid (c : Container) (p : Nat) : Container :=
  { c with pid := some p }

/-- Mirrors `Container::set_clean_up_intel_rdt_directory`. -/
def Container.set_clean_up_intel_rdt_directory (c : Container) (v : Bool) : Container :=
  { c with clean_up_intel_rdt_subdirectory := some v }

/-- The `Linux` section of the OCI runtime spec, restricted to the fields the
orchestrator reads: `cgroups_path` and the (optional) namespace list. -/
structure LinuxSpec where
  cgroups_path : Option String
  namespaces : Option (List String)
deriving DecidableEq

/-- The `Process` section of the OCI runtime spec, restricted to the field the
orchestrator reads: the optional OOM score adjustment. -/
structure ProcessSpec where
  oom_score_adj : Option Int
deriving DecidableEq

/-- The `Hooks` section of the OCI runtime spec: the `create_runtime` stage. -/
structure HooksSpec where
  create_runtime : Option (List String)
deriving DecidableEq

/-- The OCI runtime `Spec`, restricted to the sections the orchestrator
reads: `linux()`, `process()` and `hooks()`. -/
structure Spec where
  linux : Option LinuxSpec
  process : Option ProcessSpec
  hooks : Option HooksSpec
deriving DecidableEq

/-- Mirrors `libcgroups::common::CgroupConfig`. -/
structure CgroupConfig where
  cgroup_path : String
  systemd_cgroup : Bool
  container_name : String
deriving DecidableEq

/-- Mirrors `ContainerBuilderImpl`: the orchestrator's configuration.  File
descriptors are raw descriptor numbers; the polymorphic executor and the
syscall interface carry no information relevant to control flow and are
omitted. -/
structure ContainerBuilderImpl where
  container_type : ContainerType
  use_systemd : Bool
  container_id : String
  spec : Spec
  rootfs : String
  pid_file : Option String
  console_socket : Option Int
  user_ns_config : Option Unit
  notify_path : String
  container : Option Container
  preserve_fds : Int
  detached : Bool
  no_pivot : Bool
  stdin : Option Int
  stdout : Option Int
  stderr : Option Int
  as_sibling : Bool
deriving DecidableEq

/-- Mirrors `ContainerArgs`: the argument bundle handed to the process
launcher (`container_main_process`). -/
structure ContainerArgs where
  container_type : ContainerType
  spec : Spec
  rootfs : String
  console_socket : Option Int
  notify_listener : Unit
  preserve_fds : Int
  container : Option Container
  user_ns_config : Option Unit
  cgroup_config : CgroupConfig
  detached : Bool
  no_pivot : Bool
  stdin : Option Int
  stdout : Option Int
  stderr : Option Int
  as_sibling : Bool
deriving DecidableEq

/-- Mirrors `MissingSpecError` (`crate::error`). -/
inductive MissingSpecError where
  | Linux
  | Process
deriving DecidableEq

/-- Modelled from the spec: the error kinds of `crate::error` (the module is
not under `src/`).  `Create` packages the original forward-sequence failure
together with the optional rollback failure, mirroring
`CreateContainerError::new(outer, cleanup_err)`. -/
inductive LibcontainerError where
  | MissingSpec (e : MissingSpecError)
  | OtherIo (msg : String)
  | Other (msg : String)
  | MainProcess (msg : String)
  | NotifyFailed (msg : String)
  | CgroupFailed (msg : String)
  | SaveState (msg : String)
  | HookFailed (msg : String)
  | Create (run_error : LibcontainerError) (cleanup_error : Option LibcontainerError)

/-- Observable collaborator invocations, in program order. -/
inductive Event where
  | notifyListenerNew (path : String)
  | oomScoreWrite (score : Int)
  | setDumpable (value : Bool)
  | launchProcess (args : ContainerArgs)
  | pidFileWrite (path : String) (contents : String)
  | saveContainer (c : Container)
  | runHooks (hook_list : Option (List String))
  | cgroupManagerCreate (cfg : CgroupConfig)
  | cgroupRemove
  | resctrlDelete (id : String)
  | removeRoot (path : String)
deriving DecidableEq

/-- Outcomes of the external collaborators: each field is the result the
corresponding external call would return if invoked. -/
structure Env where
  notifyNewResult : Except String Unit
  oomOpenResult : Except String Unit
  oomWriteResult : Except String Unit
  setDumpableResult : Except String Unit
  mainProcessResult : Except String (Nat × Bool)
  pidWriteResult : Except String Unit
  saveResult : Except String Unit
  hooksResult : Except String Unit
  cgroupManagerNewResult : Except String Unit
  cgroupRemoveResult : Except String Unit
  resctrlDeleteResult : Except String Unit
  removeDirAllResult : Except String Unit
  rootExists : String → Bool
  geteuid : Nat

/-- Result of `run_container` / `create`: the returned value, the builder
(whose `container` field may have been mutated), and the event trace. -/
structure RunOut where
  result : Except LibcontainerError Nat
  builder : ContainerBuilderImpl
  trace : List Event

/-- Modelled from the spec: `utils::get_cgroup_path` (the `utils` module is
not under `src/`) derives the cgroup path from the spec's optional
`cgroups_path` and the container id. -/
def get_cgroup_path (cgroups_path : Option String) (container_id : String) : String :=
  cgroups_path.getD container_id

/-- The `CgroupConfig` both `run_container` and `cleanup_container` build from
the builder's own configuration (lines 89-93 and 213-217 of the source). -/
def builderCgroupConfig (linux : LinuxSpec) (b : ContainerBuilderImpl) : CgroupConfig :=
  { cgroup_path := get_cgroup_path linux.cgroups_path b.container_id
    systemd_cgroup := b.use_systemd || b.user_ns_config.isSome
    container_name := b.container_id }

/-- The OOM-score step of `run_container` (lines 117-128): if the spec
declares an OOM score adjustment, open `/proc/self/oom_score_adj` and write
the score; either failure is an `OtherIo` error. -/
def oomStep (process : ProcessSpec) (env : Env) :
    Except LibcontainerError Unit × List Event :=
  match process.oom_score_adj with
  | none => (.ok (), [])
  | some oom_score_adj =>
    match env.oomOpenResult with
    | .error e => (.error (.OtherIo e), [])
    | .ok _ =>
      match env.oomWriteResult with
      | .error e => (.error (.OtherIo e), [.oomScoreWrite oom_score_adj])
      | .ok _ => (.ok (), [.oomScoreWrite oom_score_adj])

/-- The non-dumpable step of `run_container` (lines 138-145): invoked iff the
spec's namespaces field is present (`linux.namespaces().is_some()`). -/
def dumpableStep (linux : LinuxSpec) (env : Env) :
    Except LibcontainerError Unit × List Event :=
  if linux.namespaces.isSome then
    match env.setDumpableResult with
    | .error e =>
      (.error (.Other ("error in setting dumpable to false : " ++ e)), [.setDumpable false])
    | .ok _ => (.ok (), [.setDumpable false])
  else (.ok (), [])

/-- The hook step of `run_container` (lines 196-204): for an init container
with a declared hooks section, `run_hooks` is invoked on the `create_runtime`
stage.  Modelled from the spec: `hooks::run_hooks` (not under `src/`) succeeds
trivially when the hook list is absent. -/
def hooksStep (b : ContainerBuilderImpl) (env : Env) (init_pid : Nat) (tr : List Event) :
    RunOut :=
  match b.container_type with
  | .InitContainer =>
    match b.spec.hooks with
    | some hooks =>
      let tr := tr ++ [.runHooks hooks.create_runtime]
      match hooks.create_runtime with
      | some _ =>
        match env.hooksResult with
        | .error e => ⟨.error (.HookFailed e), b, tr⟩
        | .ok _ => ⟨.ok init_pid, b, tr⟩
      | none => ⟨.ok init_pid, b, tr⟩
    | none => ⟨.ok init_pid, b, tr⟩
  | .TenantContainer => ⟨.ok init_pid, b, tr⟩

/-- The state-publishing tail of `run_container` (lines 186-206): if a
`Container` handle is present, chain the four setters and `save`, then run the
hook step. -/
def finishRun (b : ContainerBuilderImpl) (env : Env) (init_pid : Nat)
    (need_to_clean_up_intel_rdt_dir : Bool) (tr : List Event) : RunOut :=
  match b.container with
  | some container =>
    let container :=
      (((container.set_status .Created).set_creator env.geteuid).set_pid
        init_pid).set_clean_up_intel_rdt_directory need_to_clean_up_intel_rdt_dir
    let b := { b with container := some container }
    let tr := tr ++ [.saveContainer container]
    match env.saveResult with
    | .error e => ⟨.error (.SaveState e), b, tr⟩
    | .ok _ => hooksStep b env init_pid tr
  | none => hooksStep b env init_pid tr

/-- Mirrors `ContainerBuilderImpl::run_container` (lines 86-207). -/
def run_container (b : ContainerBuilderImpl) (env : Env) : RunOut :=
  match b.spec.linux with
  | none => ⟨.error (.MissingSpec .Linux), b, []⟩
  | some linux =>
    let cgroup_config := builderCgroupConfig linux b
    match b.spec.process with
    | none => ⟨.error (.MissingSpec .Process), b, []⟩
    | some process =>
      let tr : List Event := [.notifyListenerNew b.notify_path]
      match env.notifyNewResult with
      | .error e => ⟨.error (.NotifyFailed e), b, tr⟩
      | .ok _ =>
        let oom := oomStep process env
        match oom.1 with
        | .error e => ⟨.error e, b, tr ++ oom.2⟩
        | .ok _ =>
          let dmp := dumpableStep linux env
          match dmp.1 with
          | .error e => ⟨.error e, b, tr ++ oom.2 ++ dmp.2⟩
          | .ok _ =>
            let container_args : ContainerArgs :=
              { container_type := b.container_type
                spec := b.spec
                rootfs := b.rootfs
                console_socket := b.console_socket
                notify_listener := ()
                preserve_fds := b.preserve_fds
                container := b.container
                user_ns_config := b.user_ns_config
                cgroup_config := cgroup_config
                detached := b.detached
                no_pivot := b.no_pivot
                stdin := b.stdin
                stdout := b.stdout
                stderr := b.stderr
                as_sibling := b.as_sibling }
            let tr := tr ++ oom.2 ++ dmp.2 ++ [.launchProcess container_args]
            match env.mainProcessResult with
            | .error e => ⟨.error (.MainProcess e), b, tr⟩
            | .ok (init_pid, need_to_clean_up_intel_rdt_dir) =>
              match b.pid_file with
              | some pid_file =>
                let tr := tr ++ [.pidFileWrite pid_file (toString init_pid)]
                match env.pidWriteResult with
                | .error e => ⟨.error (.OtherIo e), b, tr⟩
                | .ok _ => finishRun b env init_pid need_to_clean_up_intel_rdt_dir tr
              | none => finishRun b env init_pid need_to_clean_up_intel_rdt_dir tr

/-- Mirrors `ContainerBuilderImpl::is_init_container` (lines 82-84). -/
def is_init_container (b : ContainerBuilderImpl) : Bool :=
  match b.container_type with
  | .InitContainer => true
  | .TenantContainer => false

/-- Mirrors `ContainerBuilderImpl::cleanup_container` (lines 209-250): the
best-effort rollback with error aggregation. -/
def cleanup_container (b : ContainerBuilderImpl) (env : Env) :
    Except LibcontainerError Unit × List Event :=
  match b.spec.linux with
  | none => (.error (.MissingSpec .Linux), [])
  | some linux =>
    let cfg := builderCgroupConfig linux b
    let tr0 : List Event := [.cgroupManagerCreate cfg]
    match env.cgroupManagerNewResult with
    | .error e => (.error (.CgroupFailed e), tr0)
    | .ok _ =>
      let step1 : List String × List Event :=
        match env.cgroupRemoveResult with
        | .error e => ([e], [.cgroupRemove])
        | .ok _ => ([], [.cgroupRemove])
      let step23 : List String × List Event :=
        match b.container with
        | none => ([], [])
        | some container =>
          let stepA : List String × List Event :=
            if container.clean_up_intel_rdt_subdirectory = some true then
              match env.resctrlDeleteResult with
              | .error e => ([e], [.resctrlDelete container.id])
              | .ok _ => ([], [.resctrlDelete container.id])
            else ([], [])
          let stepB : List String × List Event :=
            if env.rootExists container.root then
              match env.removeDirAllResult with
              | .error e => ([e], [.removeRoot container.root])
              | .ok _ => ([], [.removeRoot container.root])
            else ([], [])
          (stepA.1 ++ stepB.1, stepA.2 ++ stepB.2)
      let errors := step1.1 ++ step23.1
      let tr := tr0 ++ step1.2 ++ step23.2
      if errors.isEmpty then (.ok (), tr)
      else
        (.error (.Other ("failed to cleanup container: " ++ String.intercalate ";" errors)),
          tr)

/-- The error component of an `Except`, as `Result::err()` produces it. -/
def exceptError : Except LibcontainerError Unit → Option LibcontainerError
  | .error e => some e
  | .ok _ => none

/-- Mirrors `ContainerBuilderImpl::create` (lines 65-80): forward sequence,
then rollback for init containers only, packaging both errors. -/
def create (b : ContainerBuilderImpl) (env : Env) : RunOut :=
  let r := run_container b env
  match r.result with
  | .ok _ => r
  | .error outer =>
    if is_init_container r.builder then
      let cleanup := cleanup_container r.builder env
      ⟨.error (.Create outer (exceptError cleanup.1)), r.builder, r.trace ++ cleanup.2⟩
    else
      ⟨.error (.Create outer none), r.builder, r.trace⟩

/-! ### Event classifiers and concrete fixtures -/

/-- Rollback-only collaborator calls: cgroup-manager construction, cgroup
removal, resctrl-subdirectory deletion, container-root removal. -/
def Event.isRollback : Event → Bool
  | .cgroupManagerCreate _ => true
  | .cgroupRemove => true
  | .resctrlDelete _ => true
  | .removeRoot _ => true
  | _ => false

/-- A `Container.save` call. -/
def Event.isSave : Event → Bool
  | .saveContainer _ => true
  | _ => false

/-- A non-dumpable toggle invocation. -/
def Event.isDumpableToggle : Event → Bool
  | .setDumpable _ => true
  | _ => false

/-- An OOM-score write. -/
def Event.isOomWrite : Event → Bool
  | .oomScoreWrite _ => true
  | _ => false

/-- A pid-file write. -/
def Event.isPidWrite : Event → Bool
  | .pidFileWrite _ _ => true
  | _ => false

/-- A process-launcher invocation. -/
def Event.isLaunch : Event → Bool
  | .launchProcess _ => true
  | _ => false

/-- An OOM-score write or a non-dumpable toggle (for ordering claims). -/
def Event.isOomOrDumpable (e : Event) : Bool :=
  e.isOomWrite || e.isDumpableToggle

/-- A persisted record not yet created: the state a fresh `Container` handle
starts in. -/
def sampleContainer : Container :=
  ⟨"cid", "/run/youki/cid", .Creating, none, none, none⟩

/-- A well-formed spec declaring one namespace, an OOM score and a
create-runtime hook. -/
def baseSpec : Spec :=
  { linux := some ⟨none, some ["pid"]⟩
    process := some ⟨some 100⟩
    hooks := some ⟨some ["hook-cmd"]⟩ }

/-- A fully configured init-container builder. -/
def baseBuilder : ContainerBuilderImpl :=
  { container_type := .InitContainer, use_systemd := false, container_id := "cid",
    spec := baseSpec, rootfs := "/rootfs", pid_file := some "/pidfile",
    console_socket := none, user_ns_config := none, notify_path := "/notify.sock",
    container := some sampleContainer, preserve_fds := 0, detached := true,
    no_pivot := false, stdin := none, stdout := none, stderr := none,
    as_sibling := false }

/-- An environment in which every collaborator succeeds. -/
def envAllOk : Env :=
  { notifyNewResult := .ok (), oomOpenResult := .ok (), oomWriteResult := .ok (),
    setDumpableResult := .ok (), mainProcessResult := .ok (742, true),
    pidWriteResult := .ok (), saveResult := .ok (), hooksResult := .ok (),
    cgroupManagerNewResult := .ok (), cgroupRemoveResult := .ok (),
    resctrlDeleteResult := .ok (), removeDirAllResult := .ok (),
    rootExists := fun _ => true, geteuid := 7 }

/-- A container every run starts from, with the Intel-RDT cleanup flag set
(so the rollback's resctrl step applies). -/
def flaggedContainer : Container :=
  ⟨"cid", "/run/youki/cid", .Creating, none, none, some true⟩

/-- The `baseBuilder` configuration with a spec lacking the Linux section. -/
def noLinuxBuilder : ContainerBuilderImpl :=
  { baseBuilder with spec := { linux := none, process := some ⟨none⟩, hooks := none } }

/-- The `noLinuxBuilder` configuration as a tenant container. -/
def tenantNoLinuxBuilder : ContainerBuilderImpl :=
  { noLinuxBuilder with container_type := .TenantContainer }

/-- The `baseBuilder` configuration with a spec whose namespaces field is present but empty:
it declares zero namespaces. -/
def zeroNsBuilder : ContainerBuilderImpl :=
  { baseBuilder with
    spec := { linux := some ⟨none, some []⟩, process := some ⟨none⟩, hooks := none } }

/-- The `baseBuilder` configuration whose container handle carries the Intel-RDT cleanup flag. -/
def flaggedBuilder : ContainerBuilderImpl :=
  { baseBuilder with container := some flaggedContainer }

/-- An environment in which only the create-runtime hook fails. -/
def hookFailEnv : Env :=
  { envAllOk with hooksResult := .error "hook failed" }

/-- An environment in which all three rollback steps fail. -/
def rollbackFailEnv : Env :=
  { envAllOk with
    cgroupRemoveResult := .error "cgroup-err"
    resctrlDeleteResult := .error "resctrl-err"
    removeDirAllResult := .error "root-err" }

/-- The record the all-success run publishes. -/
def createdContainer : Container :=
  ⟨"cid", "/run/youki/cid", .Created, some 7, some 742, some true⟩

/-- An environment in which only the pid-file write fails. -/
def pidWriteFailEnv : Env :=
  { envAllOk with pidWriteResult := .error "pidfile-err" }

/-- Whether the forward sequence reaches the process-launcher call: both spec
sections present and the notify, OOM and dumpable steps all succeed. -/
def forward_reaches_launch (b : ContainerBuilderImpl) (env : Env) : Bool :=
  match b.spec.linux, b.spec.process with
  | some linux, some process =>
    (match env.notifyNewResult with | .ok _ => true | .error _ => false) &&
    (match (oomStep process env).1 with | .ok _ => true | .error _ => false) &&
    (match (dumpableStep linux env).1 with | .ok _ => true | .error _ => false)
  | _, _ => false

/-- The error causes `cleanup_container` records, in step order: cgroup
removal, then resctrl deletion (when applicable), then root removal (when
applicable). -/
def cleanup_recorded_errors (b : ContainerBuilderImpl) (env : Env) : List String :=
  (match env.cgroupRemoveResult with | .error e => [e] | .ok _ => []) ++
  (match b.container with
   | none => []
   | some container =>
     (if container.clean_up_intel_rdt_subdirectory = some true then
        match env.resctrlDeleteResult with | .error e => [e] | .ok _ => []
      else []) ++
     (if env.rootExists container.root then
        match env.removeDirAllResult with | .error e => [e] | .ok _ => []
      else []))

/-- Detects a save of a record whose status is `Created` followed, later in
the trace, by a rollback step. -/
def savedCreatedThenRolledBack : List Event → Bool
  | [] => false
  | e :: tr =>
    ((match e with
      | .saveContainer c => c.status == ContainerStatus.Created
      | _ => false) && tr.any Event.isRollback) || savedCreatedThenRolledBack tr

/-! ### Trace-shape lemmas for the forward steps -/

/-- The OOM step's trace, for every outcome: a write event appears exactly
when a score is declared and the file open succeeded. -/
theorem oomStep_trace (p : ProcessSpec) (env : Env) :
    (oomStep p env).2 =
      match p.oom_score_adj, env.oomOpenResult with
      | some v, .ok _ => [Event.oomScoreWrite v]
      | _, _ => [] := by
  unfold oomStep
  rcases p.oom_score_adj with _ | v
  · rfl
  · rcases env.oomOpenResult with e | u
    · rfl
    · rcases env.oomWriteResult with e | u' <;> rfl

/-- The dumpable step's trace, for every outcome: one toggle-to-false event
iff the namespaces field is present. -/
theorem dumpableStep_trace (l : LinuxSpec) (env : Env) :
    (dumpableStep l env).2 =
      if l.namespaces.isSome then [Event.setDumpable false] else [] := by
  unfold dumpableStep
  repeat' split
  all_goals rfl

/-- The hook step never touches the builder. -/
theorem hooksStep_builder (b : ContainerBuilderImpl) (env : Env) (pid : Nat)
    (tr : List Event) : (hooksStep b env pid tr).builder = b := by
  unfold hooksStep
  repeat' split
  all_goals rfl

/-- The hook step appends at most a hook-runner event to the trace. -/
theorem hooksStep_trace (b : ContainerBuilderImpl) (env : Env) (pid : Nat)
    (tr : List Event) :
    (hooksStep b env pid tr).trace = tr ∨
      ∃ hl, (hooksStep b env pid tr).trace = tr ++ [Event.runHooks hl] := by
  unfold hooksStep
  repeat' split
  all_goals first
    | exact Or.inl rfl
    | exact Or.inr ⟨_, rfl⟩

/-- The tail `finishRun` leaves the builder unchanged except possibly its `container`
field. -/
theorem finishRun_builder (b : ContainerBuilderImpl) (env : Env) (pid : Nat)
    (need : Bool) (tr : List Event) :
    (finishRun b env pid need tr).builder = b ∨
      ∃ c, (finishRun b env pid need tr).builder = { b with container := some c } := by
  unfold finishRun
  repeat' split
  all_goals first
    | exact Or.inl (hooksStep_builder ..)
    | exact Or.inr ⟨_, rfl⟩
    | exact Or.inr ⟨_, hooksStep_builder ..⟩

/-- The tail `finishRun` appends at most a save event and a hook-runner event. -/
theorem finishRun_trace (b : ContainerBuilderImpl) (env : Env) (pid : Nat)
    (need : Bool) (tr : List Event) :
    ∃ ex, (finishRun b env pid need tr).trace = tr ++ ex ∧
      ∀ e ∈ ex, Event.isSave e = true ∨ ∃ hl, e = Event.runHooks hl := by
  unfold finishRun
  split
  · split
    · exact ⟨[.saveContainer _], rfl, by simp [Event.isSave]⟩
    · rcases hooksStep_trace ({ b with container := _ }) env pid
        (tr ++ [.saveContainer _]) with h | ⟨hl, h⟩
      · exact ⟨[.saveContainer _], h, by simp [Event.isSave]⟩
      · refine ⟨[.saveContainer _, .runHooks hl], by simpa using h, ?_⟩
        simp [Event.isSave]
  · rcases hooksStep_trace b env pid tr with h | ⟨hl, h⟩
    · exact ⟨[], by simpa using h, by simp⟩
    · exact ⟨[.runHooks hl], h, by simp⟩

theorem run_container_builder (b : ContainerBuilderImpl) (env : Env) :
    (run_container b env).builder = b ∨
      ∃ c, (run_container b env).builder = { b with container := some c } := by
  unfold run_container
  dsimp only
  repeat' split
  all_goals first
    | exact Or.inl rfl
    | exact finishRun_builder ..

theorem run_container_type (b : ContainerBuilderImpl) (env : Env) :
    (run_container b env).builder.container_type = b.container_type := by
  rcases run_container_builder b env with h | ⟨c, h⟩ <;> rw [h]

theorem oomStep_all (p : ProcessSpec) (env : Env) (f : Event → Bool)
    (h : ∀ v, f (.oomScoreWrite v) = true) :
    ((oomStep p env).2).all f = true := by
  rw [oomStep_trace]
  split <;> simp [h]

theorem dumpableStep_all (l : LinuxSpec) (env : Env) (f : Event → Bool)
    (h : f (.setDumpable false) = true) :
    ((dumpableStep l env).2).all f = true := by
  rw [dumpableStep_trace]
  split <;> simp [h]

theorem finishRun_all (b : ContainerBuilderImpl) (env : Env) (pid : Nat) (need : Bool)
    (tr : List Event) (f : Event → Bool)
    (htr : tr.all f = true)
    (hsave : ∀ c, f (.saveContainer c) = true)
    (hhook : ∀ hl, f (.runHooks hl) = true) :
    ((finishRun b env pid need tr).trace).all f = true := by
  obtain ⟨ex, heq, hex⟩ := finishRun_trace b env pid need tr
  rw [heq, List.all_append, htr, Bool.true_and, List.all_eq_true]
  intro e he
  rcases hex e he with hs | ⟨hl, rfl⟩
  · cases e <;> simp_all [Event.isSave, hsave]
  · exact hhook hl

/-- Master classification: every event the forward sequence emits satisfies
any predicate holding on the seven forward event kinds. -/
theorem run_container_all (b : ContainerBuilderImpl) (env : Env) (f : Event → Bool)
    (h1 : ∀ p, f (.notifyListenerNew p) = true)
    (h2 : ∀ v, f (.oomScoreWrite v) = true)
    (h3 : f (.setDumpable false) = true)
    (h4 : ∀ a, f (.launchProcess a) = true)
    (h5 : ∀ p s, f (.pidFileWrite p s) = true)
    (h6 : ∀ c, f (.saveContainer c) = true)
    (h7 : ∀ hl, f (.runHooks hl) = true) :
    ((run_container b env).trace).all f = true := by
  have hoom : ∀ p, ((oomStep p env).2).all f = true := fun p => oomStep_all p env f h2
  have hdmp : ∀ l, ((dumpableStep l env).2).all f = true := fun l => dumpableStep_all l env f h3
  unfold run_container
  dsimp only
  repeat' split
  all_goals first
    | rfl
    | (refine finishRun_all _ _ _ _ _ _ ?_ h6 h7
       simp [List.all_append, List.all_cons, h1, h4, h5, hoom, hdmp])
    | simp [List.all_append, h1, h2, h3, h4, h5, h6, h7, hoom, hdmp]

/-- The forward sequence performs no rollback step: its trace contains no
cgroup-manager construction, cgroup removal, resctrl deletion or root
removal. -/
theorem run_container_no_rollback (b : ContainerBuilderImpl) (env : Env) :
    ((run_container b env).trace).all (fun e => !e.isRollback) = true := by
  apply run_container_all <;> intros <;> rfl

/-- Every event the rollback sequence emits satisfies any predicate holding
on the four rollback event kinds. -/
theorem cleanup_container_all (b : ContainerBuilderImpl) (env : Env) (f : Event → Bool)
    (h1 : ∀ cfg, f (.cgroupManagerCreate cfg) = true)
    (h2 : f .cgroupRemove = true)
    (h3 : ∀ i, f (.resctrlDelete i) = true)
    (h4 : ∀ p, f (.removeRoot p) = true) :
    ((cleanup_container b env).2).all f = true := by
  unfold cleanup_container
  dsimp only
  repeat' split
  all_goals simp [List.all_append, h1, h2, h3, h4]

/-- C2: if the spec lacks its Linux or its process section, `run_container`
fails with a Missing-specification error before any side effect: the trace is
empty and the builder (hence the Container record) is untouched. -/
theorem run_container_missing_spec (b : ContainerBuilderImpl) (env : Env)
    (h : b.spec.linux = none ∨ b.spec.process = none) :
    (∃ m, (run_container b env).result = .error (.MissingSpec m)) ∧
    (run_container b env).builder = b ∧
    (run_container b env).trace = [] := by
  unfold run_container
  dsimp only
  split
  · exact ⟨⟨.Linux, rfl⟩, rfl, rfl⟩
  · split
    · exact ⟨⟨.Process, rfl⟩, rfl, rfl⟩
    · exfalso
      rcases h with h | h <;> simp_all

/-- Witness for `run_container_missing_spec` at a concrete spec lacking the
Linux section. -/
theorem run_container_missing_spec_witness :
    (∃ m, (run_container noLinuxBuilder envAllOk).result = .error (.MissingSpec m)) ∧
    (run_container noLinuxBuilder envAllOk).builder = noLinuxBuilder ∧
    (run_container noLinuxBuilder envAllOk).trace = [] :=
  run_container_missing_spec noLinuxBuilder envAllOk (Or.inl rfl)

/-- C9: rollback is fail-fast before its aggregation phase: a missing Linux
section, or a failed cgroup-manager construction, is returned immediately and
none of the three cleanup steps is attempted. -/
theorem cleanup_container_shortcircuit (b : ContainerBuilderImpl) (env : Env) :
    (b.spec.linux = none →
      cleanup_container b env = (.error (.MissingSpec .Linux), [])) ∧
    (∀ linux e, b.spec.linux = some linux →
      env.cgroupManagerNewResult = .error e →
      cleanup_container b env =
        (.error (.CgroupFailed e),
          [.cgroupManagerCreate (builderCgroupConfig linux b)])) := by
  constructor
  · intro h
    unfold cleanup_container
    rw [h]
  · intro linux e hl he
    unfold cleanup_container
    rw [hl]
    dsimp only
    rw [he]

/-- Witness for `cleanup_container_shortcircuit`: a failed manager
construction returns alone, with no removal step attempted. -/
theorem cleanup_container_shortcircuit_witness :
    cleanup_container baseBuilder { envAllOk with cgroupManagerNewResult := .error "boom" } =
      (.error (.CgroupFailed "boom"),
        [.cgroupManagerCreate (builderCgroupConfig ⟨none, some ["pid"]⟩ baseBuilder)]) :=
  (cleanup_container_shortcircuit baseBuilder _).2 ⟨none, some ["pid"]⟩ "boom" rfl rfl

/-- C10: rollback never mutates the builder or the persisted record: `create`
returns exactly the builder the forward sequence produced, and the rollback
trace contains no save call — indeed nothing but rollback-kind calls. -/
theorem cleanup_container_frame (b : ContainerBuilderImpl) (env : Env) :
    (create b env).builder = (run_container b env).builder ∧
    ((cleanup_container b env).2).all (fun e => !e.isSave) = true ∧
    ((cleanup_container b env).2).all Event.isRollback = true := by
  refine ⟨?_, ?_, ?_⟩
  · unfold create
    dsimp only
    repeat' split
    all_goals rfl
  · apply cleanup_container_all <;> intros <;> rfl
  · apply cleanup_container_all <;> intros <;> rfl

/-- C1: when the forward sequence fails, `create` preserves the original
error, attaches the rollback error (if any) for an init container and `none`
for a tenant, appends the rollback trace only for an init container, and for
a tenant performs no rollback step at all. -/
theorem create_error_policy (b : ContainerBuilderImpl) (env : Env)
    (outer : LibcontainerError)
    (h : (run_container b env).result = .error outer) :
    (create b env).result = .error (.Create outer
      (if is_init_container b then
        exceptError (cleanup_container (run_container b env).builder env).1
       else none)) ∧
    (create b env).trace = (run_container b env).trace ++
      (if is_init_container b then (cleanup_container (run_container b env).builder env).2
       else []) ∧
    (is_init_container b = false →
      ((create b env).trace).all (fun e => !e.isRollback) = true) := by
  have htyp : is_init_container (run_container b env).builder = is_init_container b := by
    unfold is_init_container
    rw [run_container_type]
  have hcreate : create b env =
      if is_init_container b then
        ⟨.error (.Create outer
          (exceptError (cleanup_container (run_container b env).builder env).1)),
         (run_container b env).builder,
         (run_container b env).trace ++ (cleanup_container (run_container b env).builder env).2⟩
      else
        ⟨.error (.Create outer none), (run_container b env).builder,
          (run_container b env).trace⟩ := by
    unfold create
    dsimp only
    rw [h, htyp]
  rcases hinit : is_init_container b with _ | _
  · rw [hcreate]
    refine ⟨by simp [hinit], by simp [hinit], ?_⟩
    intro _
    simp only [hinit, if_neg Bool.false_ne_true]
    exact run_container_no_rollback b env
  · rw [hcreate]
    exact ⟨by simp [hinit], by simp [hinit], by intro hc; simp [hinit] at hc⟩

/-- Witness for `create_error_policy` at a tenant whose run fails: the
combined error carries no rollback component and the trace stays
rollback-free. -/
theorem create_error_policy_witness :
    (create tenantNoLinuxBuilder envAllOk).result =
      .error (.Create (.MissingSpec .Linux)
        (if is_init_container tenantNoLinuxBuilder then
          exceptError
            (cleanup_container (run_container tenantNoLinuxBuilder envAllOk).builder
              envAllOk).1
         else none)) ∧
    (create tenantNoLinuxBuilder envAllOk).trace =
      (run_container tenantNoLinuxBuilder envAllOk).trace ++
      (if is_init_container tenantNoLinuxBuilder then
        (cleanup_container (run_container tenantNoLinuxBuilder envAllOk).builder envAllOk).2
       else []) ∧
    (is_init_container tenantNoLinuxBuilder = false →
      ((create tenantNoLinuxBuilder envAllOk).trace).all (fun e => !e.isRollback) = true) :=
  create_error_policy tenantNoLinuxBuilder envAllOk (.MissingSpec .Linux) rfl

/-- C4 counterexample: a spec whose namespaces field is present but empty
declares zero namespaces, yet the non-dumpable toggle is invoked, because the
code keys on presence of the field (`linux.namespaces().is_some()`), not on
the number of declared namespaces. -/
theorem dumpable_zero_namespaces_counterexample :
    (∃ linux, zeroNsBuilder.spec.linux = some linux ∧ linux.namespaces = some []) ∧
    ((run_container zeroNsBuilder envAllOk).trace).any Event.isDumpableToggle = true :=
  ⟨⟨⟨none, some []⟩, rfl, rfl⟩, by decide⟩

/-- C3 counterexample: with every collaborator succeeding except the
create-runtime hook, the record is saved with status `Created` and rollback
steps nevertheless run afterwards. -/
theorem created_then_rollback_counterexample :
    savedCreatedThenRolledBack (create baseBuilder hookFailEnv).trace = true := by
  decide

theorem oomStep_cases (p : ProcessSpec) (env : Env) :
    (p.oom_score_adj = none ∧ oomStep p env = (.ok (), [])) ∨
    (∃ v e, p.oom_score_adj = some v ∧ env.oomOpenResult = .error e ∧
      oomStep p env = (.error (.OtherIo e), [])) ∨
    (∃ v e, p.oom_score_adj = some v ∧ env.oomOpenResult = .ok () ∧
      env.oomWriteResult = .error e ∧
      oomStep p env = (.error (.OtherIo e), [Event.oomScoreWrite v])) ∨
    (∃ v, p.oom_score_adj = some v ∧ env.oomOpenResult = .ok () ∧
      env.oomWriteResult = .ok () ∧ oomStep p env = (.ok (), [Event.oomScoreWrite v])) := by
  unfold oomStep
  repeat' split
  · exact Or.inl ⟨by assumption, rfl⟩
  · exact Or.inr (Or.inl ⟨_, _, by assumption, by assumption, rfl⟩)
  · exact Or.inr (Or.inr (Or.inl ⟨_, _, by assumption, by assumption, by assumption, rfl⟩))
  · exact Or.inr (Or.inr (Or.inr ⟨_, by assumption, by assumption, by assumption, rfl⟩))

theorem oomStep_trace_ok (p : ProcessSpec) (env : Env)
    (h : (oomStep p env).1 = .ok ()) :
    (oomStep p env).2 =
      match p.oom_score_adj with
      | some v => [Event.oomScoreWrite v]
      | none => [] := by
  rcases oomStep_cases p env with ⟨ha, he⟩ | ⟨v, e, ha, _, he⟩ | ⟨v, e, ha, _, _, he⟩ |
    ⟨v, ha, _, _, he⟩ <;> rw [he] <;> rw [he] at h <;> simp_all

theorem finishRun_filter (b : ContainerBuilderImpl) (env : Env) (pid : Nat) (need : Bool)
    (tr : List Event) (f : Event → Bool)
    (hsave : ∀ c, f (.saveContainer c) = false)
    (hhook : ∀ hl, f (.runHooks hl) = false) :
    ((finishRun b env pid need tr).trace).filter f = tr.filter f := by
  obtain ⟨ex, heq, hex⟩ := finishRun_trace b env pid need tr
  rw [heq, List.filter_append]
  have hnil : ex.filter f = [] := by
    rw [List.filter_eq_nil_iff]
    intro e he
    rcases hex e he with hs | ⟨hl, rfl⟩
    · cases e <;> simp_all [Event.isSave, hsave]
    · simp [hhook]
  rw [hnil, List.append_nil]

/-- C4 amended: the toggle is keyed on the presence of the namespaces field,
not the count of namespaces.  When the field is absent the toggle is never
invoked; when the field is present (even with an empty list) and the notify
and OOM steps succeed, the toggle is invoked exactly once, set to false, after
the OOM-score write (if one is declared). -/
theorem dumpable_toggle_policy (b : ContainerBuilderImpl) (env : Env)
    (linux : LinuxSpec) (process : ProcessSpec)
    (hl : b.spec.linux = some linux) (hp : b.spec.process = some process) :
    (linux.namespaces = none →
      ((run_container b env).trace).all (fun e => !e.isDumpableToggle) = true) ∧
    (linux.namespaces.isSome = true →
      env.notifyNewResult = .ok () →
      (oomStep process env).1 = .ok () →
      ((run_container b env).trace).filter Event.isOomOrDumpable =
        (match process.oom_score_adj with
         | some v => [Event.oomScoreWrite v, Event.setDumpable false]
         | none => [Event.setDumpable false])) := by
  constructor
  · intro hns
    unfold run_container
    dsimp only
    repeat' split
    all_goals first
      | rfl
      | (refine finishRun_all _ _ _ _ _ _ ?_ (by intros; rfl) (by intros; rfl)
         simp_all [List.all_append, oomStep_all, dumpableStep_trace, Event.isDumpableToggle])
      | simp_all [List.all_append, oomStep_all, dumpableStep_trace, Event.isDumpableToggle]
  · intro hns hnotify hoom
    have hoomtr : (oomStep process env).2 =
        (match process.oom_score_adj with
         | some v => [Event.oomScoreWrite v]
         | none => []) := oomStep_trace_ok process env hoom
    unfold run_container
    dsimp only
    repeat' split
    all_goals try simp_all
    all_goals first
      | (rw [finishRun_filter _ _ _ _ _ _ (fun _ => rfl) (fun _ => rfl)]
         simp_all [dumpableStep_trace, Event.isOomOrDumpable, Event.isOomWrite,
           Event.isDumpableToggle, List.filter_append])
      | simp_all [dumpableStep_trace, Event.isOomOrDumpable, Event.isOomWrite,
          Event.isDumpableToggle, List.filter_append]

/-- Witness for `dumpable_toggle_policy`: with one namespace and an OOM score
declared, the toggle fires exactly once, right after the OOM write. -/
theorem dumpable_toggle_policy_witness :
    ((run_container baseBuilder envAllOk).trace).filter Event.isOomOrDumpable =
      [Event.oomScoreWrite 100, Event.setDumpable false] :=
  (dumpable_toggle_policy baseBuilder envAllOk ⟨none, some ["pid"]⟩ ⟨some 100⟩
    rfl rfl).2 rfl rfl rfl

theorem not_save_mem_oomStep (p : ProcessSpec) (env : Env) (c : Container) :
    Event.saveContainer c ∉ (oomStep p env).2 := by
  intro hm
  have := List.all_eq_true.mp (oomStep_all p env (fun e => !e.isSave) (fun v => rfl)) _ hm
  simp [Event.isSave] at this

theorem not_save_mem_dumpableStep (l : LinuxSpec) (env : Env) (c : Container) :
    Event.saveContainer c ∉ (dumpableStep l env).2 := by
  intro hm
  have := List.all_eq_true.mp (dumpableStep_all l env (fun e => !e.isSave) rfl) _ hm
  simp [Event.isSave] at this

theorem finishRun_error (b : ContainerBuilderImpl) (env : Env) (pid : Nat) (need : Bool)
    (tr : List Event) (outer : LibcontainerError)
    (h : (finishRun b env pid need tr).result = .error outer) :
    (∃ m, env.saveResult = .error m ∧ outer = .SaveState m ∧ b.container ≠ none) ∨
    (∃ m, env.hooksResult = .error m ∧ outer = .HookFailed m ∧
      b.container_type = .InitContainer) := by
  unfold finishRun hooksStep at h
  revert h
  dsimp only
  repeat' split
  all_goals intro h
  all_goals simp_all

/-- C3 amended: a rollback following a persisted `Created` record can happen,
but only when the failing step is the create-runtime hook stage: if the
forward sequence fails after a save call was made and the save itself
succeeded, the failure is a hook failure on an init container.  For every
failure at an earlier step, no save call was made at all. -/
theorem created_save_rollback_only_hook_failure (b : ContainerBuilderImpl) (env : Env)
    (outer : LibcontainerError) (c : Container)
    (hrun : (run_container b env).result = .error outer)
    (hsave : Event.saveContainer c ∈ (run_container b env).trace)
    (hsaveok : env.saveResult = .ok ()) :
    ∃ msg, env.hooksResult = .error msg ∧ outer = .HookFailed msg ∧
      b.container_type = .InitContainer := by
  unfold run_container at hrun hsave
  revert hrun hsave
  dsimp only
  repeat' split
  all_goals intro hrun hsave
  all_goals try (solve
    | exfalso; simp_all [not_save_mem_oomStep, not_save_mem_dumpableStep])
  all_goals
    rcases finishRun_error _ _ _ _ _ _ hrun with ⟨m, hm, _, _⟩ | ⟨m, hm, ho, ht⟩
  all_goals simp_all

/-- Witness for `created_save_rollback_only_hook_failure` at the concrete
hook-failure run. -/
theorem created_save_rollback_only_hook_failure_witness :
    ∃ msg, hookFailEnv.hooksResult = .error msg ∧
      LibcontainerError.HookFailed "hook failed" = .HookFailed msg ∧
      baseBuilder.container_type = .InitContainer :=
  created_save_rollback_only_hook_failure baseBuilder hookFailEnv
    (.HookFailed "hook failed")
    ⟨"cid", "/run/youki/cid", .Created, some 7, some 742, some true⟩
    rfl (by decide) rfl

/-- C6: once the cgroup manager is constructed, rollback attempts every
applicable cleanup step regardless of other steps failing, and returns a
single combined error joining the recorded causes in step order (or succeeds
when nothing failed). -/
theorem cleanup_container_aggregates (b : ContainerBuilderImpl) (env : Env)
    (linux : LinuxSpec) (hl : b.spec.linux = some linux)
    (hm : env.cgroupManagerNewResult = .ok ()) :
    Event.cgroupRemove ∈ (cleanup_container b env).2 ∧
    (∀ c, b.container = some c →
      (c.clean_up_intel_rdt_subdirectory = some true →
        Event.resctrlDelete c.id ∈ (cleanup_container b env).2) ∧
      (env.rootExists c.root = true →
        Event.removeRoot c.root ∈ (cleanup_container b env).2)) ∧
    (cleanup_container b env).1 =
      (if cleanup_recorded_errors b env = [] then .ok ()
       else .error (.Other ("failed to cleanup container: " ++
         String.intercalate ";" (cleanup_recorded_errors b env)))) := by
  unfold cleanup_container cleanup_recorded_errors
  rw [hl, hm]
  dsimp only
  repeat' split
  all_goals simp_all

/-- Witness for `cleanup_container_aggregates`: all three steps fail, all are
attempted, and the causes are joined in step order. -/
theorem cleanup_container_aggregates_witness :
    Event.cgroupRemove ∈ (cleanup_container flaggedBuilder rollbackFailEnv).2 ∧
    (∀ c, flaggedBuilder.container = some c →
      (c.clean_up_intel_rdt_subdirectory = some true →
        Event.resctrlDelete c.id ∈ (cleanup_container flaggedBuilder rollbackFailEnv).2) ∧
      (rollbackFailEnv.rootExists c.root = true →
        Event.removeRoot c.root ∈ (cleanup_container flaggedBuilder rollbackFailEnv).2)) ∧
    (cleanup_container flaggedBuilder rollbackFailEnv).1 =
      (if cleanup_recorded_errors flaggedBuilder rollbackFailEnv = [] then .ok ()
       else .error (.Other ("failed to cleanup container: " ++
         String.intercalate ";" (cleanup_recorded_errors flaggedBuilder rollbackFailEnv)))) :=
  cleanup_container_aggregates flaggedBuilder rollbackFailEnv ⟨none, some ["pid"]⟩ rfl rfl

theorem finishRun_save_mem (b : ContainerBuilderImpl) (env : Env) (pid : Nat) (need : Bool)
    (tr : List Event) (c : Container)
    (htr : tr.all (fun e => !e.isSave) = true)
    (h : Event.saveContainer c ∈ (finishRun b env pid need tr).trace) :
    ∃ c₀, b.container = some c₀ ∧
      c = (((c₀.set_status .Created).set_creator env.geteuid).set_pid
        pid).set_clean_up_intel_rdt_directory need ∧
      ((finishRun b env pid need tr).trace).filter Event.isSave =
        [Event.saveContainer c] ∧
      (finishRun b env pid need tr).builder = { b with container := some c } := by
  have htr' : tr.filter Event.isSave = [] := by
    rw [List.filter_eq_nil_iff]
    intro e he
    have := List.all_eq_true.mp htr e he
    simpa using this
  have hnotmem : Event.saveContainer c ∉ tr := by
    intro hm
    have := List.all_eq_true.mp htr _ hm
    simp [Event.isSave] at this
  revert h
  unfold finishRun
  dsimp only
  split
  · split
    · intro h
      rcases List.mem_append.mp h with h | h
      · exact absurd h hnotmem
      · rw [List.mem_singleton] at h
        injection h with hc
        refine ⟨_, by assumption, hc, ?_, by rw [hc]⟩
        rw [List.filter_append, htr', hc]
        rfl
    · intro h
      rcases hooksStep_trace { b with container := some _ } env pid
          (tr ++ [Event.saveContainer _]) with heq | ⟨hl, heq⟩ <;> rw [heq] at h ⊢
      · rcases List.mem_append.mp h with h | h
        · exact absurd h hnotmem
        · rw [List.mem_singleton] at h
          injection h with hc
          refine ⟨_, by assumption, hc, ?_, ?_⟩
          · rw [List.filter_append, htr', hc]
            rfl
          · rw [hooksStep_builder, hc]
      · rcases List.mem_append.mp h with h | h
        · rcases List.mem_append.mp h with h | h
          · exact absurd h hnotmem
          · rw [List.mem_singleton] at h
            injection h with hc
            refine ⟨_, by assumption, hc, ?_, ?_⟩
            · rw [List.filter_append, List.filter_append, htr', hc]
              rfl
            · rw [hooksStep_builder, hc]
        · simp at h
  · intro h
    exfalso
    rcases hooksStep_trace b env pid tr with heq | ⟨hl, heq⟩ <;> rw [heq] at h
    · exact absurd h hnotmem
    · rcases List.mem_append.mp h with h | h
      · exact absurd h hnotmem
      · simp at h

/-- C5: a save call happens only after a successful launch, is unique in the
trace, and publishes status `Created`, the orchestrator's effective uid, the
launcher's pid and the launcher's resource-control flag all in that single
call; the builder holds exactly the saved record. -/
theorem save_single_point (b : ContainerBuilderImpl) (env : Env) (c : Container)
    (h : Event.saveContainer c ∈ (run_container b env).trace) :
    ∃ pid need c₀, env.mainProcessResult = .ok (pid, need) ∧
      b.container = some c₀ ∧
      c.status = .Created ∧ c.creator = some env.geteuid ∧ c.pid = some pid ∧
      c.clean_up_intel_rdt_subdirectory = some need ∧
      ((run_container b env).trace).filter Event.isSave = [Event.saveContainer c] ∧
      (run_container b env).builder = { b with container := some c } := by
  unfold run_container at h ⊢
  revert h
  dsimp only
  repeat' split
  all_goals intro h
  all_goals try (solve
    | exfalso; simp_all [not_save_mem_oomStep, not_save_mem_dumpableStep])
  all_goals
    obtain ⟨c₀, hc₀, hcdef, hfil, hbld⟩ :=
      finishRun_save_mem _ _ _ _ _ _ (by
        simp only [List.all_append, List.all_cons, List.all_nil, Bool.and_eq_true,
          Bool.and_true, Bool.true_and, List.all_eq_true]
        repeat' apply And.intro
        all_goals first
          | rfl
          | (intro e he
             first
               | (have hsv := List.all_eq_true.mp
                    (oomStep_all _ env (fun e => !e.isSave) (fun v => rfl)) _ he
                  simpa using hsv)
               | (have hsv := List.all_eq_true.mp
                    (dumpableStep_all _ env (fun e => !e.isSave) rfl) _ he
                  simpa using hsv))) h
  all_goals subst hcdef
  all_goals exact ⟨_, _, c₀, by assumption, hc₀, rfl, rfl, rfl, rfl, hfil, hbld⟩

/-- Witness for `save_single_point` at the all-success run. -/
theorem save_single_point_witness :
    ∃ pid need c₀, envAllOk.mainProcessResult = .ok (pid, need) ∧
      baseBuilder.container = some c₀ ∧
      createdContainer.status = .Created ∧
      createdContainer.creator = some envAllOk.geteuid ∧
      createdContainer.pid = some pid ∧
      createdContainer.clean_up_intel_rdt_subdirectory = some need ∧
      ((run_container baseBuilder envAllOk).trace).filter Event.isSave =
        [Event.saveContainer createdContainer] ∧
      (run_container baseBuilder envAllOk).builder =
        { baseBuilder with container := some createdContainer } :=
  save_single_point baseBuilder envAllOk createdContainer (by decide)

theorem digitChar_isDigit {d : Nat} (h : d < 10) : (Nat.digitChar d).isDigit = true := by
  interval_cases d <;> decide

theorem digitChar_val {d : Nat} (h : d < 10) :
    (Nat.digitChar d).toNat - Char.toNat (Char.ofNat 48) = d := by
  interval_cases d <;> decide

theorem toDigitsCore_spec (fuel : Nat) : ∀ (n : Nat) (ds : List Char),
    n < 10 ^ (fuel + 1) →
    ∃ res : List Char,
      Nat.toDigitsCore 10 (fuel + 1) n ds = res ++ ds ∧
      res ≠ [] ∧
      (∀ c ∈ res, c.isDigit = true) ∧
      ∀ a : Nat,
        List.foldl (fun n c => n * 10 + (c.toNat - Char.toNat (Char.ofNat 48))) a res =
          a * 10 ^ res.length + n := by
  induction fuel with
  | zero =>
    intro n ds h
    rw [pow_one] at h
    have hdiv : n / 10 = 0 := Nat.div_eq_of_lt h
    have hmod : n % 10 = n := Nat.mod_eq_of_lt h
    refine ⟨[Nat.digitChar (n % 10)], ?_, by simp, ?_, ?_⟩
    · unfold Nat.toDigitsCore
      simp [hdiv]
    · intro c hc
      rw [List.mem_singleton] at hc
      subst hc
      exact digitChar_isDigit (by omega)
    · intro a
      simp only [List.foldl_cons, List.foldl_nil, List.length_singleton, pow_one]
      rw [hmod, digitChar_val (by omega)]
  | succ fuel ih =>
    intro n ds h
    by_cases hdiv : n / 10 = 0
    · have hn : n < 10 := by omega
      have hmod : n % 10 = n := Nat.mod_eq_of_lt hn
      refine ⟨[Nat.digitChar (n % 10)], ?_, by simp, ?_, ?_⟩
      · unfold Nat.toDigitsCore
        simp [hdiv]
      · intro c hc
        rw [List.mem_singleton] at hc
        subst hc
        exact digitChar_isDigit (by omega)
      · intro a
        simp only [List.foldl_cons, List.foldl_nil, List.length_singleton, pow_one]
        rw [hmod, digitChar_val (by omega)]
    · have hlt : n / 10 < 10 ^ (fuel + 1) := by
        rw [Nat.div_lt_iff_lt_mul (by norm_num : 0 < 10)]
        calc n < 10 ^ (fuel + 2) := h
          _ = 10 ^ (fuel + 1) * 10 := by ring
      obtain ⟨res, heq, hne, hdig, hfold⟩ := ih (n / 10) (Nat.digitChar (n % 10) :: ds) hlt
      refine ⟨res ++ [Nat.digitChar (n % 10)], ?_, by simp, ?_, ?_⟩
      · have hstep : Nat.toDigitsCore 10 (fuel + 2) n ds =
            Nat.toDigitsCore 10 (fuel + 1) (n / 10) (Nat.digitChar (n % 10) :: ds) := by
          conv_lhs => unfold Nat.toDigitsCore
          simp [hdiv]
        rw [hstep, heq]
        simp
      · intro c hc
        rcases List.mem_append.mp hc with hc | hc
        · exact hdig c hc
        · rw [List.mem_singleton] at hc
          subst hc
          exact digitChar_isDigit (Nat.mod_lt n (by norm_num))
      · intro a
        rw [List.foldl_append]
        simp only [List.foldl_cons, List.foldl_nil, List.length_append,
          List.length_singleton]
        rw [hfold a, digitChar_val (Nat.mod_lt n (by norm_num))]
        have : a * 10 ^ res.length * 10 + (10 * (n / 10) + n % 10) =
            a * 10 ^ (res.length + 1) + n := by
          rw [Nat.div_add_mod]
          ring
        calc (a * 10 ^ res.length + n / 10) * 10 + n % 10
            = a * 10 ^ res.length * 10 + (10 * (n / 10) + n % 10) := by ring
          _ = a * 10 ^ (res.length + 1) + n := this

/-- Decimal round-trip: parsing the decimal representation of a natural
number recovers the number. -/
theorem toNat?_repr (n : Nat) : String.toNat? (Nat.repr n) = some n := by
  have hb : n < 10 ^ (n + 1) :=
    lt_of_lt_of_le (Nat.lt_pow_self (by norm_num) n)
      (Nat.pow_le_pow_right (by norm_num) (Nat.le_succ n))
  obtain ⟨res, heq, hne, hdig, hfold⟩ := toDigitsCore_spec n n [] hb
  have hrepr : Nat.repr n = res.asString := by
    unfold Nat.repr Nat.toDigits
    rw [heq, List.append_nil]
  have hdata : (res.asString).data = res := List.toList_asString res
  have hempty : (res.asString).isEmpty = false := by
    rw [Bool.eq_false_iff]
    intro hcontra
    rw [String.isEmpty_iff] at hcontra
    apply hne
    have : res.asString = List.asString [] := by rw [hcontra]; rfl
    exact List.asString_inj.mp this
  have hisnat : (res.asString).isNat = true := by
    unfold String.isNat
    rw [hempty, String.all_eq, hdata]
    simp only [Bool.not_false, Bool.true_and]
    exact List.all_eq_true.mpr hdig
  rw [hrepr]
  unfold String.toNat?
  rw [hisnat]
  simp only [if_true]
  rw [String.foldl_eq, hdata, hfold 0]
  simp

theorem not_pidwrite_mem_oomStep (p' : ProcessSpec) (env : Env) (pa s : String) :
    Event.pidFileWrite pa s ∉ (oomStep p' env).2 := by
  intro hm
  have := List.all_eq_true.mp
    (oomStep_all p' env (fun e => !e.isPidWrite) (fun v => rfl)) _ hm
  simp [Event.isPidWrite] at this

theorem not_pidwrite_mem_dumpableStep (l : LinuxSpec) (env : Env) (pa s : String) :
    Event.pidFileWrite pa s ∉ (dumpableStep l env).2 := by
  intro hm
  have := List.all_eq_true.mp
    (dumpableStep_all l env (fun e => !e.isPidWrite) rfl) _ hm
  simp [Event.isPidWrite] at this

theorem finishRun_pidwrite_mem (b : ContainerBuilderImpl) (env : Env) (pid : Nat)
    (need : Bool) (tr : List Event) (pa s : String)
    (h : Event.pidFileWrite pa s ∈ (finishRun b env pid need tr).trace) :
    Event.pidFileWrite pa s ∈ tr := by
  obtain ⟨ex, heqtr, hex⟩ := finishRun_trace b env pid need tr
  rw [heqtr] at h
  rcases List.mem_append.mp h with h | h
  · exact h
  · exfalso
    rcases hex _ h with hs | ⟨hl, hh⟩
    · simp [Event.isSave] at hs
    · simp at hh

theorem mem_finishRun_of_mem (b : ContainerBuilderImpl) (env : Env) (pid : Nat)
    (need : Bool) (tr : List Event) (e : Event) (h : e ∈ tr) :
    e ∈ (finishRun b env pid need tr).trace := by
  obtain ⟨ex, heqtr, _⟩ := finishRun_trace b env pid need tr
  rw [heqtr]
  exact List.mem_append_left _ h

/-- C7: a pid-file write happens exactly when a pid-file path is configured
and the launcher call was reached and succeeded; its content is the decimal
representation of the launcher's pid, and parsing it back recovers that
exact pid. -/
theorem pid_file_written_iff (b : ContainerBuilderImpl) (env : Env) (p s : String) :
    Event.pidFileWrite p s ∈ (run_container b env).trace ↔
      (b.pid_file = some p ∧ forward_reaches_launch b env = true ∧
        ∃ pid need, env.mainProcessResult = .ok (pid, need) ∧ s = toString pid ∧
          String.toNat? s = some pid) := by
  constructor
  · intro h
    unfold run_container at h
    revert h
    dsimp only
    repeat' split
    all_goals intro h
    all_goals try (replace h := finishRun_pidwrite_mem _ _ _ _ _ _ _ h)
    all_goals try (solve
      | exfalso; simp_all [not_pidwrite_mem_oomStep, not_pidwrite_mem_dumpableStep])
    all_goals
      simp only [List.mem_append, List.mem_singleton, List.mem_cons,
        List.not_mem_nil, or_false] at h
    all_goals rcases h with (((h | h) | h) | h) | h
    all_goals try (solve
      | exact absurd h (not_pidwrite_mem_oomStep _ env _ _)
      | exact absurd h (not_pidwrite_mem_dumpableStep _ env _ _)
      | simp at h)
    all_goals injection h with h1 h2
    all_goals subst h1
    all_goals subst h2
    all_goals refine ⟨by simp_all, ?_, _, _, by assumption, rfl, toNat?_repr _⟩
    all_goals unfold forward_reaches_launch
    all_goals simp_all
  · rintro ⟨hp, hreach, pid, need, hmain, hs, _⟩
    unfold forward_reaches_launch at hreach
    unfold run_container
    dsimp only
    repeat' split
    all_goals try (solve | simp_all)
    all_goals try (apply mem_finishRun_of_mem)
    all_goals simp_all [List.mem_append]

/-- Witness for `pid_file_written_iff`: the all-success run writes "742" to
the configured path. -/
theorem pid_file_written_iff_witness :
    Event.pidFileWrite "/pidfile" "742" ∈ (run_container baseBuilder envAllOk).trace :=
  (pid_file_written_iff baseBuilder envAllOk "/pidfile" "742").mpr
    ⟨rfl, rfl, 742, true, rfl, rfl, toNat?_repr 742⟩

/-- C8: if the pid-file write fails after the launcher already produced a
child, `run_container` fails before the record is updated or saved — the
builder is unchanged and no save call appears — and for an init container
`create` still runs the rollback sequence. -/
theorem pid_write_failure_blocks_publish (b : ContainerBuilderImpl) (env : Env)
    (p m : String) (pid : Nat) (need : Bool)
    (hp : b.pid_file = some p)
    (hreach : forward_reaches_launch b env = true)
    (hmain : env.mainProcessResult = .ok (pid, need))
    (hw : env.pidWriteResult = .error m) :
    (run_container b env).result = .error (.OtherIo m) ∧
    (run_container b env).builder = b ∧
    ((run_container b env).trace).all (fun e => !e.isSave) = true ∧
    ((run_container b env).trace).any Event.isLaunch = true ∧
    (is_init_container b = true →
      (create b env).trace = (run_container b env).trace ++ (cleanup_container b env).2) := by
  have hmainfacts : (run_container b env).result = .error (.OtherIo m) ∧
      (run_container b env).builder = b ∧
      ((run_container b env).trace).all (fun e => !e.isSave) = true ∧
      ((run_container b env).trace).any Event.isLaunch = true := by
    unfold forward_reaches_launch at hreach
    unfold run_container
    dsimp only
    repeat' split
    all_goals try (solve | simp_all)
    rename_i e heqw
    rw [hw] at heqw
    injection heqw with heqw
    subst heqw
    refine ⟨rfl, rfl, ?_, ?_⟩
    · simp only [List.all_append, List.all_cons, List.all_nil, Bool.and_eq_true,
        Bool.and_true, Bool.true_and, List.all_eq_true]
      repeat' apply And.intro
      all_goals first
        | rfl
        | (intro e he
           first
             | (have hsv := List.all_eq_true.mp
                  (oomStep_all _ env (fun e => !e.isSave) (fun v => rfl)) _ he
                simpa using hsv)
             | (have hsv := List.all_eq_true.mp
                  (dumpableStep_all _ env (fun e => !e.isSave) rfl) _ he
                simpa using hsv))
    · simp [List.any_append, Event.isLaunch]
  obtain ⟨hres, hbld, hall, hany⟩ := hmainfacts
  refine ⟨hres, hbld, hall, hany, ?_⟩
  intro hinit
  unfold create
  dsimp only
  rw [hres]
  have : is_init_container (run_container b env).builder = true := by
    unfold is_init_container at hinit ⊢
    rw [run_container_type]
    exact hinit
  rw [this, hbld]
  simp

/-- Witness for `pid_write_failure_blocks_publish` at the concrete
pid-file-failure run. -/
theorem pid_write_failure_blocks_publish_witness :
    (run_container baseBuilder pidWriteFailEnv).result = .error (.OtherIo "pidfile-err") ∧
    (run_container baseBuilder pidWriteFailEnv).builder = baseBuilder ∧
    ((run_container baseBuilder pidWriteFailEnv).trace).all (fun e => !e.isSave) = true ∧
    ((run_container baseBuilder pidWriteFailEnv).trace).any Event.isLaunch = true ∧
    (is_init_container baseBuilder = true →
      (create baseBuilder pidWriteFailEnv).trace =
        (run_container baseBuilder pidWriteFailEnv).trace ++
        (cleanup_container baseBuilder pidWriteFailEnv).2) :=
  pid_write_failure_blocks_publish baseBuilder pidWriteFailEnv "/pidfile" "pidfile-err"
    742 true rfl rfl rfl rfl
